import Mathlib

/-!
Verification of the resource-pool module `src/premade_pools.rs` of
`leafwing_abilities`.

The Rust quantities `Life` and `Mana` wrap an `f32`.  Every operation of the
two pool implementations is order-theoretic (comparisons and `f32::clamp`;
no rounding arithmetic), so we model the scalar by `ℚ`: this is exact for
every non-NaN floating-point value.  Rust's `f32::clamp(min, max)` asserts
`min <= max` and panics otherwise; the panic is modelled separately by an
`Option`-valued variant (`fclampChecked`, `set_current_checked`), while the
non-panicking branch is the total function `fclamp`, written exactly as the
body of `f32::clamp`.
-/

/-- The body of Rust `f32::clamp` after its `assert!(min <= max)`:
`if x < min { x = min }; if x > max { x = max }`. -/
def fclamp (x lo hi : ℚ) : ℚ :=
  if x < lo then lo else if x > hi then hi else x

/-- Rust `f32::clamp` including its assertion `min <= max`; `none` models the
panic taken when the assertion fails. -/
def fclampChecked (x lo hi : ℚ) : Option ℚ :=
  if lo ≤ hi then some (fclamp x lo hi) else none

/-- `pub struct Life(pub f32)` from `premade_pools.rs`. -/
structure Life where
  val : ℚ
deriving DecidableEq

/-- `pub struct Mana(pub f32)` from `premade_pools.rs`. -/
structure Mana where
  val : ℚ
deriving DecidableEq

/-- The unit error type `MaxPoolLessThanZero` from `crate::pool`. -/
structure MaxPoolLessThanZero where
deriving DecidableEq

/-- `pub struct LifePool { current: Life, max: Life, pub regen_per_second: Life }`. -/
structure LifePool where
  current : Life
  max : Life
  regen_per_second : Life
deriving DecidableEq

/-- `pub struct ManaPool { current: Mana, max: Mana, pub regen_per_second: Mana }`. -/
structure ManaPool where
  current : Mana
  max : Mana
  regen_per_second : Mana
deriving DecidableEq

/-- `const ZERO: Life = Life(0.)` of `impl Pool for LifePool`. -/
def LifePool.ZERO : Life := ⟨0⟩

/-- `const ZERO: Mana = Mana(0.)` of `impl Pool for ManaPool`. -/
def ManaPool.ZERO : Mana := ⟨0⟩

/-- `LifePool::new`: stores the three arguments verbatim. -/
def LifePool.new (current max regen_per_second : Life) : LifePool :=
  ⟨current, max, regen_per_second⟩

/-- `ManaPool::new`: stores the three arguments verbatim. -/
def ManaPool.new (current max regen_per_second : Mana) : ManaPool :=
  ⟨current, max, regen_per_second⟩

/-- `LifePool::set_current`: clamps the argument to `[0, self.max]`, stores the
clamped value and returns it.  The pair is (updated pool, returned value). -/
def LifePool.set_current (p : LifePool) (new_quantity : Life) : LifePool × Life :=
  let actual_value : Life := ⟨fclamp new_quantity.val 0 p.max.val⟩
  ({ p with current := actual_value }, actual_value)

/-- `ManaPool::set_current`. -/
def ManaPool.set_current (p : ManaPool) (new_quantity : Mana) : ManaPool × Mana :=
  let actual_value : Mana := ⟨fclamp new_quantity.val 0 p.max.val⟩
  ({ p with current := actual_value }, actual_value)

/-- `LifePool::set_current` with the panic of the underlying `f32::clamp`
made explicit: `none` is the panic. -/
def LifePool.set_current_checked (p : LifePool) (new_quantity : Life) :
    Option (LifePool × Life) :=
  (fclampChecked new_quantity.val 0 p.max.val).map
    fun c => ({ p with current := ⟨c⟩ }, (⟨c⟩ : Life))

/-- `ManaPool::set_current` with the panic of the underlying `f32::clamp`
made explicit. -/
def ManaPool.set_current_checked (p : ManaPool) (new_quantity : Mana) :
    Option (ManaPool × Mana) :=
  (fclampChecked new_quantity.val 0 p.max.val).map
    fun c => ({ p with current := ⟨c⟩ }, (⟨c⟩ : Mana))

/-- `LifePool::set_max`: errors on `new_max < ZERO`, otherwise sets `max` and
re-clamps `current` via `set_current(self.current)`.  The pair is
(updated pool, returned `Result`). -/
def LifePool.set_max (p : LifePool) (new_max : Life) :
    LifePool × Except MaxPoolLessThanZero Unit :=
  if new_max.val < LifePool.ZERO.val then
    (p, Except.error ⟨⟩)
  else
    let p1 := { p with max := new_max }
    ((p1.set_current p1.current).1, Except.ok ())

/-- `ManaPool::set_max`. -/
def ManaPool.set_max (p : ManaPool) (new_max : Mana) :
    ManaPool × Except MaxPoolLessThanZero Unit :=
  if new_max.val < ManaPool.ZERO.val then
    (p, Except.error ⟨⟩)
  else
    let p1 := { p with max := new_max }
    ((p1.set_current p1.current).1, Except.ok ())

/-- `LifePool::set_regen_per_second`: unconditional field update. -/
def LifePool.set_regen_per_second (p : LifePool) (new_regen_per_second : Life) : LifePool :=
  { p with regen_per_second := new_regen_per_second }

/-- `ManaPool::set_regen_per_second`: unconditional field update. -/
def ManaPool.set_regen_per_second (p : ManaPool) (new_regen_per_second : Mana) : ManaPool :=
  { p with regen_per_second := new_regen_per_second }

/-- The documented pool invariant `ZERO <= current <= max`. -/
def LifePool.inv (p : LifePool) : Prop :=
  LifePool.ZERO.val ≤ p.current.val ∧ p.current.val ≤ p.max.val

/-- The documented pool invariant `ZERO <= current <= max`. -/
def ManaPool.inv (p : ManaPool) : Prop :=
  ManaPool.ZERO.val ≤ p.current.val ∧ p.current.val ≤ p.max.val

instance (p : LifePool) : Decidable p.inv := by
  unfold LifePool.inv; infer_instance

instance (p : ManaPool) : Decidable p.inv := by
  unfold ManaPool.inv; infer_instance

/-- A sequence of `set_current` calls, keeping only the pool state. -/
def LifePool.run_set_current (p : LifePool) (vs : List Life) : LifePool :=
  vs.foldl (fun q v => (q.set_current v).1) p

/-- A sequence of `set_current` calls, keeping only the pool state. -/
def ManaPool.run_set_current (p : ManaPool) (vs : List Mana) : ManaPool :=
  vs.foldl (fun q v => (q.set_current v).1) p

/-- The field-renaming bijection `Life(x) ↦ Mana(x)`. -/
def lifeToMana (l : Life) : Mana := ⟨l.val⟩

/-- Transport of a whole pool along `lifeToMana`. -/
def lifePoolToManaPool (p : LifePool) : ManaPool :=
  ⟨lifeToMana p.current, lifeToMana p.max, lifeToMana p.regen_per_second⟩

theorem fclamp_mem (x lo hi : ℚ) (h : lo ≤ hi) :
    lo ≤ fclamp x lo hi ∧ fclamp x lo hi ≤ hi := by
  unfold fclamp
  split_ifs with h1 h2 <;> constructor <;> linarith

theorem fclamp_eq_max_min (x lo hi : ℚ) (h : lo ≤ hi) :
    fclamp x lo hi = max lo (min x hi) := by
  unfold fclamp
  split_ifs with h1 h2
  · rw [min_eq_left (by linarith), max_eq_left (by linarith)]
  · rw [min_eq_right (by linarith), max_eq_right h]
  · rw [min_eq_left (by linarith), max_eq_right (by linarith)]

theorem fclamp_of_mem (y lo hi : ℚ) (h1 : lo ≤ y) (h2 : y ≤ hi) :
    fclamp y lo hi = y := by
  unfold fclamp
  split_ifs <;> linarith

theorem fclamp_idem (x lo hi : ℚ) (h : lo ≤ hi) :
    fclamp (fclamp x lo hi) lo hi = fclamp x lo hi := by
  have hm := fclamp_mem x lo hi h
  exact fclamp_of_mem _ lo hi hm.1 hm.2

theorem life_set_current_inv (p : LifePool) (v : Life)
    (h : LifePool.ZERO.val ≤ p.max.val) : (p.set_current v).1.inv := by
  have := fclamp_mem v.val 0 p.max.val h
  simpa [LifePool.set_current, LifePool.inv, LifePool.ZERO] using this

theorem mana_set_current_inv (p : ManaPool) (v : Mana)
    (h : ManaPool.ZERO.val ≤ p.max.val) : (p.set_current v).1.inv := by
  have := fclamp_mem v.val 0 p.max.val h
  simpa [ManaPool.set_current, ManaPool.inv, ManaPool.ZERO] using this

theorem life_set_current_max_eq (p : LifePool) (v : Life) :
    (p.set_current v).1.max = p.max := rfl

theorem mana_set_current_max_eq (p : ManaPool) (v : Mana) :
    (p.set_current v).1.max = p.max := rfl

theorem life_run_set_current_inv (vs : List Life) (p : LifePool)
    (h : LifePool.ZERO.val ≤ p.max.val) (hne : vs ≠ []) :
    (p.run_set_current vs).inv := by
  induction vs generalizing p with
  | nil => exact absurd rfl hne
  | cons v rest ih =>
    show ((p.set_current v).1.run_set_current rest).inv
    cases rest with
    | nil => exact life_set_current_inv p v h
    | cons w ws =>
      exact ih (p.set_current v).1 (by rw [life_set_current_max_eq p v]; exact h) (by simp)

theorem mana_run_set_current_inv (vs : List Mana) (p : ManaPool)
    (h : ManaPool.ZERO.val ≤ p.max.val) (hne : vs ≠ []) :
    (p.run_set_current vs).inv := by
  induction vs generalizing p with
  | nil => exact absurd rfl hne
  | cons v rest ih =>
    show ((p.set_current v).1.run_set_current rest).inv
    cases rest with
    | nil => exact mana_set_current_inv p v h
    | cons w ws =>
      exact ih (p.set_current v).1 (by rw [mana_set_current_max_eq p v]; exact h) (by simp)

theorem life_set_current_idem (p : LifePool) (v : Life)
    (h : LifePool.ZERO.val ≤ p.max.val) :
    ((p.set_current v).1.set_current (p.set_current v).2).1 = (p.set_current v).1 := by
  have h0 : (0:ℚ) ≤ p.max.val := by simpa [LifePool.ZERO] using h
  simp [LifePool.set_current, fclamp_idem v.val 0 p.max.val h0]

theorem mana_set_current_idem (p : ManaPool) (v : Mana)
    (h : ManaPool.ZERO.val ≤ p.max.val) :
    ((p.set_current v).1.set_current (p.set_current v).2).1 = (p.set_current v).1 := by
  have h0 : (0:ℚ) ≤ p.max.val := by simpa [ManaPool.ZERO] using h
  simp [ManaPool.set_current, fclamp_idem v.val 0 p.max.val h0]

/-- Claim C1: for every `LifePool` (resp. `ManaPool`) state satisfying
`ZERO ≤ current ≤ max`, every mutating operation of the pool — `set_current`
with any argument, `set_max` with any argument, and `set_regen_per_second`
with any argument — leaves the pool in a state still satisfying
`ZERO ≤ current ≤ max`. -/
theorem C1_mutations_preserve_invariant
    (p : LifePool) (v : Life) (q : ManaPool) (w : Mana)
    (hp : p.inv) (hq : q.inv) :
    ((p.set_current v).1.inv ∧ (p.set_max v).1.inv ∧ (p.set_regen_per_second v).inv) ∧
    ((q.set_current w).1.inv ∧ (q.set_max w).1.inv ∧ (q.set_regen_per_second w).inv) := by
  obtain ⟨hp1, hp2⟩ := hp
  obtain ⟨hq1, hq2⟩ := hq
  refine ⟨⟨?_, ?_, ?_⟩, ?_, ?_, ?_⟩
  · exact life_set_current_inv p v (le_trans hp1 hp2)
  · unfold LifePool.set_max
    split_ifs with h
    · exact ⟨hp1, hp2⟩
    · exact life_set_current_inv _ _ (not_lt.mp h)
  · exact ⟨hp1, hp2⟩
  · exact mana_set_current_inv q w (le_trans hq1 hq2)
  · unfold ManaPool.set_max
    split_ifs with h
    · exact ⟨hq1, hq2⟩
    · exact mana_set_current_inv _ _ (not_lt.mp h)
  · exact ⟨hq1, hq2⟩

theorem C1_witness :
    (LifePool.mk ⟨3⟩ ⟨10⟩ ⟨1⟩).inv ∧ (ManaPool.mk ⟨2⟩ ⟨8⟩ ⟨0⟩).inv ∧
    ((((LifePool.mk ⟨3⟩ ⟨10⟩ ⟨1⟩).set_current ⟨99⟩).1.inv ∧
      ((LifePool.mk ⟨3⟩ ⟨10⟩ ⟨1⟩).set_max ⟨99⟩).1.inv ∧
      ((LifePool.mk ⟨3⟩ ⟨10⟩ ⟨1⟩).set_regen_per_second ⟨99⟩).inv) ∧
     (((ManaPool.mk ⟨2⟩ ⟨8⟩ ⟨0⟩).set_current ⟨-4⟩).1.inv ∧
      ((ManaPool.mk ⟨2⟩ ⟨8⟩ ⟨0⟩).set_max ⟨-4⟩).1.inv ∧
      ((ManaPool.mk ⟨2⟩ ⟨8⟩ ⟨0⟩).set_regen_per_second ⟨-4⟩).inv)) :=
  ⟨by decide, by decide,
   C1_mutations_preserve_invariant (LifePool.mk ⟨3⟩ ⟨10⟩ ⟨1⟩) ⟨99⟩
     (ManaPool.mk ⟨2⟩ ⟨8⟩ ⟨0⟩) ⟨-4⟩ (by decide) (by decide)⟩

/-- Claim C2 as stated is false: `LifePool::new`/`ManaPool::new` store the
supplied `current` verbatim, so with `max = 5 ≥ ZERO` and `current = -1` the
constructed pool's `current` is `-1`, outside `[ZERO, max]`. -/
theorem C2_counterexample :
    LifePool.ZERO.val ≤ (⟨5⟩ : Life).val ∧
    (LifePool.new ⟨-1⟩ ⟨5⟩ ⟨0⟩).current.val < LifePool.ZERO.val ∧
    ManaPool.ZERO.val ≤ (⟨5⟩ : Mana).val ∧
    (ManaPool.new ⟨-1⟩ ⟨5⟩ ⟨0⟩).current.val < ManaPool.ZERO.val := by decide

/-- Claim C2 amended: `LifePool::new` and `ManaPool::new` store the supplied
`current` exactly as given, performing no clamping at all; the stored
`current` lies in `[ZERO, max]` only when the supplied argument already
does. -/
theorem C2_new_stores_current_verbatim (c m r : Life) (c2 m2 r2 : Mana) :
    (LifePool.new c m r).current = c ∧ (ManaPool.new c2 m2 r2).current = c2 :=
  ⟨rfl, rfl⟩

/-- Claim C3 as stated is false: the constructors are total (their result type
is a pool, not a `Result`), perform no validation of `max`, and store it
verbatim, so a pool with `max = -5 < ZERO` is obtained directly from `new`. -/
theorem C3_counterexample :
    (LifePool.new ⟨0⟩ ⟨-5⟩ ⟨0⟩).max.val < LifePool.ZERO.val ∧
    (ManaPool.new ⟨0⟩ ⟨-5⟩ ⟨0⟩).max.val < ManaPool.ZERO.val := by decide

/-- Claim C3 amended: `LifePool::new` and `ManaPool::new` never fail; they
store the supplied `max` exactly as given — even a `max` strictly below
`ZERO` — so pools with negative `max` are obtainable from the constructor. -/
theorem C3_new_total_stores_max_verbatim (c m r : Life) (c2 m2 r2 : Mana) :
    ((LifePool.new c m r).max = m ∧ (ManaPool.new c2 m2 r2).max = m2) ∧
    (LifePool.new ⟨0⟩ ⟨-5⟩ ⟨0⟩).max = (⟨-5⟩ : Life) ∧
    (ManaPool.new ⟨0⟩ ⟨-5⟩ ⟨0⟩).max = (⟨-5⟩ : Mana) :=
  ⟨⟨rfl, rfl⟩, rfl, rfl⟩

/-- Claim C4: for every pool with `max ≥ ZERO` and every value `v`,
`set_current v` stores exactly the clamp of `v` into `[ZERO, max]` as the new
`current` and returns that stored value, so the returned value equals
`current()` read immediately afterwards. -/
theorem C4_set_current_clamps_and_returns_stored
    (p : LifePool) (v : Life) (q : ManaPool) (w : Mana)
    (hp : LifePool.ZERO.val ≤ p.max.val) (hq : ManaPool.ZERO.val ≤ q.max.val) :
    ((p.set_current v).1.current.val = max LifePool.ZERO.val (min v.val p.max.val) ∧
     (p.set_current v).2 = (p.set_current v).1.current) ∧
    ((q.set_current w).1.current.val = max ManaPool.ZERO.val (min w.val q.max.val) ∧
     (q.set_current w).2 = (q.set_current w).1.current) := by
  refine ⟨⟨?_, rfl⟩, ?_, rfl⟩
  · simpa [LifePool.set_current, LifePool.ZERO] using
      fclamp_eq_max_min v.val 0 p.max.val hp
  · simpa [ManaPool.set_current, ManaPool.ZERO] using
      fclamp_eq_max_min w.val 0 q.max.val hq

theorem C4_witness :
    LifePool.ZERO.val ≤ (LifePool.mk ⟨3⟩ ⟨10⟩ ⟨1⟩).max.val ∧
    ManaPool.ZERO.val ≤ (ManaPool.mk ⟨2⟩ ⟨8⟩ ⟨0⟩).max.val ∧
    ((((LifePool.mk ⟨3⟩ ⟨10⟩ ⟨1⟩).set_current ⟨-2⟩).1.current.val =
        max LifePool.ZERO.val (min (⟨-2⟩ : Life).val (LifePool.mk ⟨3⟩ ⟨10⟩ ⟨1⟩).max.val) ∧
      ((LifePool.mk ⟨3⟩ ⟨10⟩ ⟨1⟩).set_current ⟨-2⟩).2 =
        ((LifePool.mk ⟨3⟩ ⟨10⟩ ⟨1⟩).set_current ⟨-2⟩).1.current) ∧
     (((ManaPool.mk ⟨2⟩ ⟨8⟩ ⟨0⟩).set_current ⟨11⟩).1.current.val =
        max ManaPool.ZERO.val (min (⟨11⟩ : Mana).val (ManaPool.mk ⟨2⟩ ⟨8⟩ ⟨0⟩).max.val) ∧
      ((ManaPool.mk ⟨2⟩ ⟨8⟩ ⟨0⟩).set_current ⟨11⟩).2 =
        ((ManaPool.mk ⟨2⟩ ⟨8⟩ ⟨0⟩).set_current ⟨11⟩).1.current)) :=
  ⟨by decide, by decide,
   C4_set_current_clamps_and_returns_stored (LifePool.mk ⟨3⟩ ⟨10⟩ ⟨1⟩) ⟨-2⟩
     (ManaPool.mk ⟨2⟩ ⟨8⟩ ⟨0⟩) ⟨11⟩ (by decide) (by decide)⟩

/-- Claim C5: for every pool and every `new_max < ZERO`, `set_max new_max`
returns the `MaxPoolLessThanZero` error and leaves the whole pool unchanged
(`current`, `max` and `regen_per_second` keep their prior values). -/
theorem C5_set_max_negative_error_unchanged
    (p : LifePool) (v : Life) (q : ManaPool) (w : Mana)
    (hv : v.val < LifePool.ZERO.val) (hw : w.val < ManaPool.ZERO.val) :
    ((p.set_max v).1 = p ∧ (p.set_max v).2 = Except.error ⟨⟩) ∧
    ((q.set_max w).1 = q ∧ (q.set_max w).2 = Except.error ⟨⟩) := by
  unfold LifePool.set_max ManaPool.set_max
  rw [if_pos hv, if_pos hw]
  exact ⟨⟨rfl, rfl⟩, rfl, rfl⟩

theorem C5_witness :
    (⟨-3⟩ : Life).val < LifePool.ZERO.val ∧
    (⟨-7⟩ : Mana).val < ManaPool.ZERO.val ∧
    ((((LifePool.mk ⟨3⟩ ⟨10⟩ ⟨1⟩).set_max ⟨-3⟩).1 = LifePool.mk ⟨3⟩ ⟨10⟩ ⟨1⟩ ∧
      ((LifePool.mk ⟨3⟩ ⟨10⟩ ⟨1⟩).set_max ⟨-3⟩).2 = Except.error ⟨⟩) ∧
     (((ManaPool.mk ⟨2⟩ ⟨8⟩ ⟨0⟩).set_max ⟨-7⟩).1 = ManaPool.mk ⟨2⟩ ⟨8⟩ ⟨0⟩ ∧
      ((ManaPool.mk ⟨2⟩ ⟨8⟩ ⟨0⟩).set_max ⟨-7⟩).2 = Except.error ⟨⟩)) :=
  ⟨by decide, by decide,
   C5_set_max_negative_error_unchanged (LifePool.mk ⟨3⟩ ⟨10⟩ ⟨1⟩) ⟨-3⟩
     (ManaPool.mk ⟨2⟩ ⟨8⟩ ⟨0⟩) ⟨-7⟩ (by decide) (by decide)⟩

/-- Claim C6: for every pool with `ZERO ≤ current ≤ max` and every
`new_max ≥ ZERO`, `set_max new_max` succeeds, sets `max` to `new_max` and
re-clamps `current` into `[ZERO, new_max]` (the new `current` is
`min current new_max`); in particular when `new_max` is below the old
`current` the resulting `current` equals `new_max`. -/
theorem C6_set_max_nonneg_reclamps
    (p : LifePool) (v : Life) (q : ManaPool) (w : Mana)
    (hp : p.inv) (hv : LifePool.ZERO.val ≤ v.val)
    (hq : q.inv) (hw : ManaPool.ZERO.val ≤ w.val) :
    ((p.set_max v).2 = Except.ok () ∧ (p.set_max v).1.max = v ∧
     (p.set_max v).1.current.val = min p.current.val v.val ∧
     (v.val < p.current.val → (p.set_max v).1.current = v)) ∧
    ((q.set_max w).2 = Except.ok () ∧ (q.set_max w).1.max = w ∧
     (q.set_max w).1.current.val = min q.current.val w.val ∧
     (w.val < q.current.val → (q.set_max w).1.current = w)) := by
  obtain ⟨hp1, _⟩ := hp
  obtain ⟨hq1, _⟩ := hq
  have hv0 : (0:ℚ) ≤ v.val := hv
  have hw0 : (0:ℚ) ≤ w.val := hw
  have hp0 : (0:ℚ) ≤ p.current.val := hp1
  have hq0 : (0:ℚ) ≤ q.current.val := hq1
  have hclp : fclamp p.current.val 0 v.val = min p.current.val v.val := by
    rw [fclamp_eq_max_min _ _ _ hv0]
    exact max_eq_right (le_min hp0 hv0)
  have hclq : fclamp q.current.val 0 w.val = min q.current.val w.val := by
    rw [fclamp_eq_max_min _ _ _ hw0]
    exact max_eq_right (le_min hq0 hw0)
  unfold LifePool.set_max ManaPool.set_max
  rw [if_neg (not_lt.mpr hv), if_neg (not_lt.mpr hw)]
  refine ⟨⟨rfl, rfl, hclp, ?_⟩, rfl, rfl, hclq, ?_⟩
  · intro h
    show (⟨fclamp p.current.val 0 v.val⟩ : Life) = v
    rw [hclp, min_eq_right (le_of_lt h)]
  · intro h
    show (⟨fclamp q.current.val 0 w.val⟩ : Mana) = w
    rw [hclq, min_eq_right (le_of_lt h)]

theorem C6_witness :
    (LifePool.mk ⟨7⟩ ⟨10⟩ ⟨1⟩).inv ∧ LifePool.ZERO.val ≤ (⟨4⟩ : Life).val ∧
    (ManaPool.mk ⟨6⟩ ⟨8⟩ ⟨0⟩).inv ∧ ManaPool.ZERO.val ≤ (⟨2⟩ : Mana).val ∧
    ((((LifePool.mk ⟨7⟩ ⟨10⟩ ⟨1⟩).set_max ⟨4⟩).2 = Except.ok () ∧
      ((LifePool.mk ⟨7⟩ ⟨10⟩ ⟨1⟩).set_max ⟨4⟩).1.max = (⟨4⟩ : Life) ∧
      ((LifePool.mk ⟨7⟩ ⟨10⟩ ⟨1⟩).set_max ⟨4⟩).1.current.val =
        min (LifePool.mk ⟨7⟩ ⟨10⟩ ⟨1⟩).current.val (⟨4⟩ : Life).val ∧
      ((⟨4⟩ : Life).val < (LifePool.mk ⟨7⟩ ⟨10⟩ ⟨1⟩).current.val →
        ((LifePool.mk ⟨7⟩ ⟨10⟩ ⟨1⟩).set_max ⟨4⟩).1.current = (⟨4⟩ : Life))) ∧
     (((ManaPool.mk ⟨6⟩ ⟨8⟩ ⟨0⟩).set_max ⟨2⟩).2 = Except.ok () ∧
      ((ManaPool.mk ⟨6⟩ ⟨8⟩ ⟨0⟩).set_max ⟨2⟩).1.max = (⟨2⟩ : Mana) ∧
      ((ManaPool.mk ⟨6⟩ ⟨8⟩ ⟨0⟩).set_max ⟨2⟩).1.current.val =
        min (ManaPool.mk ⟨6⟩ ⟨8⟩ ⟨0⟩).current.val (⟨2⟩ : Mana).val ∧
      ((⟨2⟩ : Mana).val < (ManaPool.mk ⟨6⟩ ⟨8⟩ ⟨0⟩).current.val →
        ((ManaPool.mk ⟨6⟩ ⟨8⟩ ⟨0⟩).set_max ⟨2⟩).1.current = (⟨2⟩ : Mana)))) :=
  ⟨by decide, by decide, by decide, by decide,
   C6_set_max_nonneg_reclamps (LifePool.mk ⟨7⟩ ⟨10⟩ ⟨1⟩) ⟨4⟩
     (ManaPool.mk ⟨6⟩ ⟨8⟩ ⟨0⟩) ⟨2⟩ (by decide) (by decide) (by decide) (by decide)⟩

/-- Claim C7: clamping by `set_current` is idempotent — calling `set_current`
again with the value just stored leaves the pool unchanged — and consequently
after every call in any (nonempty) sequence of `set_current` calls the
invariant `ZERO ≤ current ≤ max` holds (precondition `max ≥ ZERO`). -/
theorem C7_set_current_idempotent_sequences
    (p : LifePool) (v : Life) (vs : List Life)
    (q : ManaPool) (w : Mana) (ws : List Mana)
    (hp : LifePool.ZERO.val ≤ p.max.val) (hvs : vs ≠ [])
    (hq : ManaPool.ZERO.val ≤ q.max.val) (hws : ws ≠ []) :
    (((p.set_current v).1.set_current (p.set_current v).2).1 = (p.set_current v).1 ∧
     (p.run_set_current vs).inv) ∧
    (((q.set_current w).1.set_current (q.set_current w).2).1 = (q.set_current w).1 ∧
     (q.run_set_current ws).inv) :=
  ⟨⟨life_set_current_idem p v hp, life_run_set_current_inv vs p hp hvs⟩,
   mana_set_current_idem q w hq, mana_run_set_current_inv ws q hq hws⟩

theorem C7_witness :
    LifePool.ZERO.val ≤ (LifePool.mk ⟨3⟩ ⟨10⟩ ⟨1⟩).max.val ∧
    ([(⟨99⟩ : Life), ⟨-1⟩] ≠ []) ∧
    ManaPool.ZERO.val ≤ (ManaPool.mk ⟨2⟩ ⟨8⟩ ⟨0⟩).max.val ∧
    ([(⟨-5⟩ : Mana)] ≠ []) ∧
    (((((LifePool.mk ⟨3⟩ ⟨10⟩ ⟨1⟩).set_current ⟨99⟩).1.set_current
         ((LifePool.mk ⟨3⟩ ⟨10⟩ ⟨1⟩).set_current ⟨99⟩).2).1 =
        ((LifePool.mk ⟨3⟩ ⟨10⟩ ⟨1⟩).set_current ⟨99⟩).1 ∧
      ((LifePool.mk ⟨3⟩ ⟨10⟩ ⟨1⟩).run_set_current [⟨99⟩, ⟨-1⟩]).inv) ∧
     ((((ManaPool.mk ⟨2⟩ ⟨8⟩ ⟨0⟩).set_current ⟨-7⟩).1.set_current
         ((ManaPool.mk ⟨2⟩ ⟨8⟩ ⟨0⟩).set_current ⟨-7⟩).2).1 =
        ((ManaPool.mk ⟨2⟩ ⟨8⟩ ⟨0⟩).set_current ⟨-7⟩).1 ∧
      ((ManaPool.mk ⟨2⟩ ⟨8⟩ ⟨0⟩).run_set_current [⟨-5⟩]).inv)) :=
  ⟨by decide, by decide, by decide, by decide,
   C7_set_current_idempotent_sequences (LifePool.mk ⟨3⟩ ⟨10⟩ ⟨1⟩) ⟨99⟩ [⟨99⟩, ⟨-1⟩]
     (ManaPool.mk ⟨2⟩ ⟨8⟩ ⟨0⟩) ⟨-7⟩ [⟨-5⟩] (by decide) (by decide) (by decide) (by decide)⟩

/-- Claim C8: `set_regen_per_second v` stores `v` unconditionally (no clamping,
never failing) and leaves `current` and `max` unchanged, for both pools. -/
theorem C8_set_regen_unconditional_frame
    (p : LifePool) (v : Life) (q : ManaPool) (w : Mana) :
    ((p.set_regen_per_second v).regen_per_second = v ∧
     (p.set_regen_per_second v).current = p.current ∧
     (p.set_regen_per_second v).max = p.max) ∧
    ((q.set_regen_per_second w).regen_per_second = w ∧
     (q.set_regen_per_second w).current = q.current ∧
     (q.set_regen_per_second w).max = q.max) :=
  ⟨⟨rfl, rfl, rfl⟩, rfl, rfl, rfl⟩

/-- Claim C9: under the bijection `Life(x) ↦ Mana(x)`, `LifePool` and
`ManaPool` implement the `Pool` contract identically: `new`, `current`,
`set_current` (state and returned value), `max`, `set_max` (state and
returned `Result`), `regen_per_second` and `set_regen_per_second` commute
with the transport of pools along the bijection. -/
theorem C9_life_mana_pools_equivalent (c m r v : Life) (p : LifePool) :
    Function.Bijective lifeToMana ∧
    lifePoolToManaPool (LifePool.new c m r) =
      ManaPool.new (lifeToMana c) (lifeToMana m) (lifeToMana r) ∧
    lifeToMana p.current = (lifePoolToManaPool p).current ∧
    lifePoolToManaPool (p.set_current v).1 =
      ((lifePoolToManaPool p).set_current (lifeToMana v)).1 ∧
    lifeToMana (p.set_current v).2 =
      ((lifePoolToManaPool p).set_current (lifeToMana v)).2 ∧
    lifeToMana p.max = (lifePoolToManaPool p).max ∧
    lifePoolToManaPool (p.set_max v).1 =
      ((lifePoolToManaPool p).set_max (lifeToMana v)).1 ∧
    (p.set_max v).2 = ((lifePoolToManaPool p).set_max (lifeToMana v)).2 ∧
    lifeToMana p.regen_per_second = (lifePoolToManaPool p).regen_per_second ∧
    lifePoolToManaPool (p.set_regen_per_second v) =
      (lifePoolToManaPool p).set_regen_per_second (lifeToMana v) := by
  refine ⟨⟨?_, ?_⟩, rfl, rfl, rfl, rfl, rfl, ?_, ?_, rfl, rfl⟩
  · intro a b h
    cases a
    cases b
    simpa [lifeToMana] using h
  · intro z
    exact ⟨⟨z.val⟩, rfl⟩
  · dsimp only [LifePool.set_max, ManaPool.set_max, lifeToMana, lifePoolToManaPool,
      LifePool.ZERO, ManaPool.ZERO]
    split_ifs <;> rfl
  · dsimp only [LifePool.set_max, ManaPool.set_max, lifeToMana, lifePoolToManaPool,
      LifePool.ZERO, ManaPool.ZERO]
    split_ifs <;> rfl

theorem life_set_current_checked_eq (p : LifePool) (v : Life)
    (h : LifePool.ZERO.val ≤ p.max.val) :
    p.set_current_checked v = some (p.set_current v) := by
  unfold LifePool.set_current_checked fclampChecked LifePool.set_current
  rw [if_pos (show (0:ℚ) ≤ p.max.val from h)]
  rfl

theorem mana_set_current_checked_eq (p : ManaPool) (v : Mana)
    (h : ManaPool.ZERO.val ≤ p.max.val) :
    p.set_current_checked v = some (p.set_current v) := by
  unfold ManaPool.set_current_checked fclampChecked ManaPool.set_current
  rw [if_pos (show (0:ℚ) ≤ p.max.val from h)]
  rfl

theorem life_set_max_ok_nonneg (p : LifePool) (m : Life)
    (hm : (p.set_max m).2 = Except.ok ()) :
    LifePool.ZERO.val ≤ (p.set_max m).1.max.val := by
  unfold LifePool.set_max at hm ⊢
  split_ifs at hm ⊢ with h
  exact not_lt.mp h

theorem mana_set_max_ok_nonneg (p : ManaPool) (m : Mana)
    (hm : (p.set_max m).2 = Except.ok ()) :
    ManaPool.ZERO.val ≤ (p.set_max m).1.max.val := by
  unfold ManaPool.set_max at hm ⊢
  split_ifs at hm ⊢ with h
  exact not_lt.mp h

/-- Claim C10: for every pool whose `max` satisfies `ZERO ≤ max`,
`set_current` never panics — the checked variant (modelling the
`assert!(min <= max)` of the underlying `f32::clamp`) returns `some` and
agrees with the total one.  The precondition is established by every
successful `set_max`, but not by the constructor: `new` performs no
validation, and on a pool freshly built with `max = -1` the checked
`set_current` hits the panic branch (`none`). -/
theorem C10_set_current_panic_free
    (p : LifePool) (v m : Life) (q : ManaPool) (w n : Mana)
    (hp : LifePool.ZERO.val ≤ p.max.val) (hq : ManaPool.ZERO.val ≤ q.max.val)
    (hm : (p.set_max m).2 = Except.ok ()) (hn : (q.set_max n).2 = Except.ok ()) :
    (p.set_current_checked v = some (p.set_current v) ∧
     LifePool.ZERO.val ≤ (p.set_max m).1.max.val ∧
     (p.set_max m).1.set_current_checked v = some ((p.set_max m).1.set_current v) ∧
     (LifePool.new ⟨0⟩ ⟨-1⟩ ⟨0⟩).set_current_checked ⟨0⟩ = none) ∧
    (q.set_current_checked w = some (q.set_current w) ∧
     ManaPool.ZERO.val ≤ (q.set_max n).1.max.val ∧
     (q.set_max n).1.set_current_checked w = some ((q.set_max n).1.set_current w) ∧
     (ManaPool.new ⟨0⟩ ⟨-1⟩ ⟨0⟩).set_current_checked ⟨0⟩ = none) := by
  refine ⟨⟨life_set_current_checked_eq p v hp, life_set_max_ok_nonneg p m hm,
            life_set_current_checked_eq _ v (life_set_max_ok_nonneg p m hm), by decide⟩,
          mana_set_current_checked_eq q w hq, mana_set_max_ok_nonneg q n hn,
            mana_set_current_checked_eq _ w (mana_set_max_ok_nonneg q n hn), by decide⟩

theorem C10_witness :
    LifePool.ZERO.val ≤ (LifePool.mk ⟨3⟩ ⟨10⟩ ⟨1⟩).max.val ∧
    ManaPool.ZERO.val ≤ (ManaPool.mk ⟨2⟩ ⟨8⟩ ⟨0⟩).max.val ∧
    ((LifePool.mk ⟨3⟩ ⟨10⟩ ⟨1⟩).set_max ⟨4⟩).2 = Except.ok () ∧
    ((ManaPool.mk ⟨2⟩ ⟨8⟩ ⟨0⟩).set_max ⟨5⟩).2 = Except.ok () ∧
    (((LifePool.mk ⟨3⟩ ⟨10⟩ ⟨1⟩).set_current_checked ⟨6⟩ =
        some ((LifePool.mk ⟨3⟩ ⟨10⟩ ⟨1⟩).set_current ⟨6⟩) ∧
      LifePool.ZERO.val ≤ ((LifePool.mk ⟨3⟩ ⟨10⟩ ⟨1⟩).set_max ⟨4⟩).1.max.val ∧
      ((LifePool.mk ⟨3⟩ ⟨10⟩ ⟨1⟩).set_max ⟨4⟩).1.set_current_checked ⟨6⟩ =
        some (((LifePool.mk ⟨3⟩ ⟨10⟩ ⟨1⟩).set_max ⟨4⟩).1.set_current ⟨6⟩) ∧
      (LifePool.new ⟨0⟩ ⟨-1⟩ ⟨0⟩).set_current_checked ⟨0⟩ = none) ∧
     ((ManaPool.mk ⟨2⟩ ⟨8⟩ ⟨0⟩).set_current_checked ⟨9⟩ =
        some ((ManaPool.mk ⟨2⟩ ⟨8⟩ ⟨0⟩).set_current ⟨9⟩) ∧
      ManaPool.ZERO.val ≤ ((ManaPool.mk ⟨2⟩ ⟨8⟩ ⟨0⟩).set_max ⟨5⟩).1.max.val ∧
      ((ManaPool.mk ⟨2⟩ ⟨8⟩ ⟨0⟩).set_max ⟨5⟩).1.set_current_checked ⟨9⟩ =
        some (((ManaPool.mk ⟨2⟩ ⟨8⟩ ⟨0⟩).set_max ⟨5⟩).1.set_current ⟨9⟩) ∧
      (ManaPool.new ⟨0⟩ ⟨-1⟩ ⟨0⟩).set_current_checked ⟨0⟩ = none)) :=
  ⟨by decide, by decide, by rfl, by rfl,
   C10_set_current_panic_free (LifePool.mk ⟨3⟩ ⟨10⟩ ⟨1⟩) ⟨6⟩ ⟨4⟩
     (ManaPool.mk ⟨2⟩ ⟨8⟩ ⟨0⟩) ⟨9⟩ ⟨5⟩ (by decide) (by decide) (by rfl) (by rfl)⟩
